import Mathlib

/-!
A shallow embedding of `src/app/app.py`: a PostgreSQL CRUD command-line
application over a single `students` table, together with a verification of
its operations.

Modelling conventions:

* The external PostgreSQL store is modelled by `DB`: the list of stored rows
  plus the serial counter backing the store-generated `student_id` column
  (`students.student_id` is the primary key, so well-formed stores have
  pairwise distinct ids; theorems that need this take it as a hypothesis).
* Each Python repository function becomes a Lean function from the store to
  an `Outcome`: the final store, the printed lines (in order), the trace of
  connection/cursor events, and the Python result — `Except.error` models a
  propagated exception, `Except.ok` a normal return.
* psycopg2 semantics of `with get_conn() as conn:`: leaving the block
  invokes `connection.__exit__`, which commits the open transaction on
  normal exit (rolls back on exception) and does NOT close the connection —
  psycopg2 documents that the connection stays usable after the block.  Only
  `with conn.cursor() as cur:` closes its cursor.  The event trace records
  this: `Event.connCommit` is an explicit `conn.commit()` call,
  `Event.connExitCommit` the commit issued by `connection.__exit__`, and
  `Event.connClose` would be a `conn.close()` call — which the source never
  makes, so no operation emits it.
* `datetime.strptime(s, "%Y-%m-%d")` (CPython `_strptime`) is modelled by
  `parseYmd`: the format compiles to the anchored regular expression
  `(\d\d\d\d)-(1[0-2]|0[1-9]|[1-9])-(3[0-1]|[1-2]\d|0[1-9]|[1-9]| [1-9])`
  matched against the whole string, after which `datetime(year, month, day)`
  additionally requires `1 ≤ year` and the day to exist in that month
  (Gregorian leap rule).  Since none of the three token languages contains
  a dash, whole-string regex matching is equivalent to splitting the input
  at every dash and checking the three resulting tokens, which is how
  `parseYmd` is written.
* The `DATE` column normalises its value: psycopg2 returns a
  `datetime.date`, whose string form is the zero-padded ISO `YYYY-MM-DD`
  rendered here by `renderDate`.  Stored rows therefore carry a `Date`
  value, and `list` output carries the rendered string.
* Module initialisation (`DB_CONFIG` at `app.py:20-26`) runs before any
  dispatch; `program` sequences it before `main`, so a configuration
  exception yields `Except.error` and no operation runs at all.
  Connection parameters only configure the external connection and do not
  affect store semantics, so `main` does not consume the `Config` value.
-/

/-- Decimal value of a list of digit characters (most significant first). -/
def digitsToNat (cs : List Char) : Nat :=
  cs.foldl (fun a c => 10 * a + (c.toNat - 48)) 0

/-- Split a character list at every dash, like Python `s.split("-")` /
`String.splitOn "-"`: `"a-b"` gives `["a", "b"]`, `""` gives `[""]`. -/
def splitDash : List Char → List (List Char)
  | [] => [[]]
  | c :: rest =>
    if c = '-' then [] :: splitDash rest
    else
      match splitDash rest with
      | [] => [[c]]
      | g :: gs => (c :: g) :: gs

/-- The `%Y` token of `_strptime`: exactly four decimal digits. -/
def yearTok (cs : List Char) : Bool :=
  cs.length == 4 && cs.all Char.isDigit

/-- The `%m` token of `_strptime`, regex `1[0-2]|0[1-9]|[1-9]`: one or two
digits with value 1..12. -/
def monthTok (cs : List Char) : Bool :=
  cs.all Char.isDigit && (cs.length == 1 || cs.length == 2)
    && decide (1 ≤ digitsToNat cs) && decide (digitsToNat cs ≤ 12)

/-- The `%d` token of `_strptime`, regex
`3[0-1]|[1-2]\d|0[1-9]|[1-9]| [1-9]`: one or two digits with value 1..31,
or a space followed by a nonzero digit. -/
def dayTok (cs : List Char) : Bool :=
  (cs.all Char.isDigit && (cs.length == 1 || cs.length == 2)
    && decide (1 ≤ digitsToNat cs) && decide (digitsToNat cs ≤ 31))
  || (match cs with
      | [' ', c] => c.isDigit && c != '0'
      | _ => false)

/-- Numeric value of a `%d` token (drop the optional leading space). -/
def dayVal (cs : List Char) : Nat :=
  digitsToNat (cs.dropWhile (fun c => c == ' '))

/-- Gregorian leap year, as in Python `datetime`. -/
def isLeap (y : Nat) : Bool :=
  y % 4 == 0 && (y % 100 != 0 || y % 400 == 0)

/-- Days in a month, as checked by the `datetime.date` constructor. -/
def daysInMonth (y m : Nat) : Nat :=
  if m == 2 then (if isLeap y then 29 else 28)
  else if m == 4 || m == 6 || m == 9 || m == 11 then 30
  else 31

/-- A calendar date as held by a `DATE` column / `datetime.date`. -/
structure Date where
  year : Nat
  month : Nat
  day : Nat
  deriving DecidableEq

/-- Model of `datetime.strptime(s, "%Y-%m-%d")` from `app.py:61`: `some`
with the parsed date when it succeeds, `none` when it raises `ValueError`. -/
def parseYmd (s : String) : Option Date :=
  match splitDash s.data with
  | [ys, ms, ds] =>
    if yearTok ys && monthTok ms && dayTok ds then
      let y := digitsToNat ys
      let m := digitsToNat ms
      let d := dayVal ds
      if decide (1 ≤ y) && decide (d ≤ daysInMonth y m) then some ⟨y, m, d⟩
      else none
    else none
  | _ => none

/-- Left-pad with zeros to width `w`. -/
def padZeros (w : Nat) (cs : List Char) : List Char :=
  List.replicate (w - cs.length) '0' ++ cs

/-- ISO rendering of a date, i.e. `str(datetime.date(y, m, d))`:
zero-padded `YYYY-MM-DD`. -/
def renderDate (d : Date) : String :=
  String.mk (padZeros 4 (Nat.toDigits 10 d.year) ++ '-' ::
    (padZeros 2 (Nat.toDigits 10 d.month) ++ '-' :: padZeros 2 (Nat.toDigits 10 d.day)))

/-- A string is a canonical well-formed `YYYY-MM-DD` date: it parses under
`strptime` and re-rendering the parsed date reproduces the input (this rules
out the unpadded forms such as `"2024-1-1"` that `strptime` also accepts). -/
def canonicalYmd (s : String) : Bool :=
  match parseYmd s with
  | some d => renderDate d == s
  | none => false

/-- Modelled from the spec's words (claim C2): a string "matching the
YYYY-MM-DD format" — four digits, dash, two digits, dash, two digits, read
charitably as also requiring the month to be 01..12 and the day 01..31. -/
def matchesYmdFormat (s : String) : Bool :=
  match s.data with
  | [y1, y2, y3, y4, s1, m1, m2, s2, d1, d2] =>
    [y1, y2, y3, y4, m1, m2, d1, d2].all Char.isDigit && s1 == '-' && s2 == '-'
      && decide (1 ≤ digitsToNat [m1, m2]) && decide (digitsToNat [m1, m2] ≤ 12)
      && decide (1 ≤ digitsToNat [d1, d2]) && decide (digitsToNat [d1, d2] ≤ 31)
  | _ => false

/-- One row of the `students` table. -/
structure Student where
  student_id : Int
  first_name : String
  last_name : String
  email : String
  enrollment_date : Date
  deriving DecidableEq

/-- The external store: the `students` table plus the serial sequence
backing the generated `student_id` column. -/
structure DB where
  rows : List Student
  nextId : Int
  deriving DecidableEq

/-- A propagated Python exception (`ValueError` is the only kind the
modelled code raises itself). -/
inductive PyErr where
  | valueError (msg : String)
  deriving DecidableEq

/-- Connection/cursor lifecycle events, in program order. -/
inductive Event where
  | connOpen
  | exec
  | connCommit
  | connExitCommit
  | curClose
  | connClose
  deriving DecidableEq

/-- The observable outcome of running one repository operation. -/
structure Outcome (α : Type) where
  db : DB
  output : List String
  events : List Event
  result : Except PyErr α

/-- A row as returned by the `RealDictCursor` in `getAllStudents`, with the
`DATE` value in its ISO string form. -/
structure Row where
  student_id : Int
  first_name : String
  last_name : String
  email : String
  enrollment_date : String
  deriving DecidableEq

/-- View a stored student as a fetched row. -/
def toRow (r : Student) : Row :=
  ⟨r.student_id, r.first_name, r.last_name, r.email, renderDate r.enrollment_date⟩

/-- The line `app.py:53` prints for one row. -/
def rowLine (r : Row) : String :=
  toString r.student_id ++ ": " ++ r.first_name ++ " " ++ r.last_name ++
    " (" ++ r.email ++ ") — " ++ r.enrollment_date

/-- `ORDER BY student_id` comparison. -/
def leId (a b : Student) : Prop := a.student_id ≤ b.student_id

instance : DecidableRel leId :=
  fun a b => inferInstanceAs (Decidable (a.student_id ≤ b.student_id))

instance : IsTotal Student leId := ⟨fun a b => Int.le_total a.student_id b.student_id⟩

instance : IsTrans Student leId := ⟨fun _ _ _ h1 h2 => le_trans h1 h2⟩

/-- The result order of `SELECT ... ORDER BY student_id`. -/
def sortRows (l : List Student) : List Student := List.insertionSort leId l

/-- Event trace of an operation that opens a connection, executes one
statement, and leaves both `with` blocks without an explicit commit. -/
def listEvents : List Event := [.connOpen, .exec, .curClose, .connExitCommit]

/-- Event trace of an operation that additionally calls `conn.commit()`
explicitly (at `app.py:75`, `app.py:94` or `app.py:112`, inside the cursor
block, hence before the cursor closes). -/
def commitEvents : List Event := [.connOpen, .exec, .connCommit, .curClose, .connExitCommit]

/-- `getAllStudents` (`app.py:33-54`): select all rows ordered by id; print
`"No students found."` and return `[]` on an empty table, else print one
line per row and return the fetched rows. -/
def getAllStudents (db : DB) : Outcome (List Row) :=
  let rows := (sortRows db.rows).map toRow
  if rows.isEmpty then
    { db := db, output := ["No students found."], events := listEvents, result := .ok [] }
  else
    { db := db, output := rows.map rowLine, events := listEvents, result := .ok rows }

/-- `addStudent` (`app.py:57-76`): validate the date with `strptime` before
touching the store (a failure raises `ValueError` with no connection
opened); on success insert the row, let the store assign the next serial
id, commit, print the report line, and return `None`. -/
def addStudent (db : DB) (first_name last_name email enrollment_date : String) :
    Outcome (Option Int) :=
  match parseYmd enrollment_date with
  | none =>
    { db := db, output := [], events := [],
      result := .error (.valueError "enrollment_date must be YYYY-MM-DD") }
  | some d =>
    let new_id := db.nextId
    let st : Student := ⟨new_id, first_name, last_name, email, d⟩
    { db := { rows := db.rows ++ [st], nextId := db.nextId + 1 },
      output := ["Added student with ID " ++ toString new_id],
      events := commitEvents,
      result := .ok none }

/-- `updateStudentEmail` (`app.py:79-95`): execute
`UPDATE ... WHERE student_id = %s RETURNING student_id`; if no row came
back print not-found and return early (the connection's `__exit__` still
commits the zero-row transaction), else call `conn.commit()` and print the
success line.  In both branches the executed UPDATE is what is committed. -/
def updateStudentEmail (db : DB) (student_id : Int) (new_email : String) : Outcome Unit :=
  let newRows := db.rows.map (fun r =>
    if r.student_id == student_id then { r with email := new_email } else r)
  let returned := db.rows.filter (fun r => r.student_id == student_id)
  match returned with
  | [] =>
    { db := { db with rows := newRows },
      output := ["No student found with id " ++ toString student_id],
      events := listEvents,
      result := .ok () }
  | _ :: _ =>
    { db := { db with rows := newRows },
      output := ["Updated email for student " ++ toString student_id],
      events := commitEvents,
      result := .ok () }

/-- `deleteStudent` (`app.py:98-113`): execute
`DELETE ... WHERE student_id = %s RETURNING student_id`; print not-found on
an empty result (the `__exit__` commit still runs), else commit explicitly
and print the success line. -/
def deleteStudent (db : DB) (student_id : Int) : Outcome Unit :=
  let newRows := db.rows.filter (fun r => !(r.student_id == student_id))
  let returned := db.rows.filter (fun r => r.student_id == student_id)
  match returned with
  | [] =>
    { db := { db with rows := newRows },
      output := ["No student found with id " ++ toString student_id],
      events := listEvents,
      result := .ok () }
  | _ :: _ =>
    { db := { db with rows := newRows },
      output := ["Deleted student " ++ toString student_id],
      events := commitEvents,
      result := .ok () }

/-- Python whitespace stripped by `int()` (ASCII forms). -/
def isPySpace (c : Char) : Bool :=
  c == ' ' || c == '\t' || c == '\n' || c == '\r'

/-- Strip leading and trailing whitespace. -/
def stripChars (cs : List Char) : List Char :=
  ((cs.dropWhile isPySpace).reverse.dropWhile isPySpace).reverse

/-- The digit part of a Python integer literal: digit groups joined by
single underscores (`"1_000"` is accepted, `"_1"`, `"1_"`, `"1__0"` are
not). -/
def digitsUnd : List Char → Bool
  | [] => false
  | [c] => c.isDigit
  | c :: c2 :: rest =>
    c.isDigit && (if c2 = '_' then digitsUnd rest else digitsUnd (c2 :: rest))

/-- Model of Python `int(s)` on an ASCII string: strip whitespace, then an
optional sign and an underscore-grouped digit run.  `none` models the
raised `ValueError`. -/
def pyInt? (s : String) : Option Int :=
  let cs := stripChars s.data
  let signed : Int × List Char :=
    match cs with
    | '+' :: rest => ((1 : Int), rest)
    | '-' :: rest => ((-1 : Int), rest)
    | rest => ((1 : Int), rest)
  if digitsUnd signed.2 then
    some (signed.1 * (digitsToNat (signed.2.filter (fun c => !(c == '_'))) : Int))
  else none

/-- The resolved connection descriptor. -/
structure Config where
  host : String
  port : Int
  dbname : String
  user : String
  password : String
  deriving DecidableEq

/-- `int(os.getenv("PGPORT", 5432))` from `app.py:22`: the unset default
is the integer `5432` (on which `int()` is the identity); a set value goes
through `int()` and may raise. -/
def parsePort (env : String → Option String) : Except PyErr Int :=
  match env "PGPORT" with
  | none => .ok 5432
  | some s =>
    match pyInt? s with
    | some n => .ok n
    | none => .error (.valueError ("invalid literal for int() with base 10: " ++ s))

/-- `DB_CONFIG` (`app.py:20-26`), evaluated at module import: every
variable falls back to its default when unset, and only `PGPORT` is fed
through `int()`, so only it can raise during initialisation. -/
def DB_CONFIG (env : String → Option String) : Except PyErr Config :=
  match parsePort env with
  | .error e => .error e
  | .ok port =>
    .ok { host := (env "PGHOST").getD "localhost",
          port := port,
          dbname := (env "PGDATABASE").getD "university",
          user := (env "PGUSER").getD "postgres",
          password := (env "PGPASSWORD").getD "postgres" }

/-- A parsed subcommand, as produced by the argparse dispatcher
(`app.py:116-149`). -/
inductive Cmd where
  | listCmd
  | addCmd (first_name last_name email enrollment_date : String)
  | updateEmailCmd (student_id : Int) (new_email : String)
  | deleteCmd (student_id : Int)
  deriving DecidableEq

/-- Drop the operation's return value (the dispatcher ignores it). -/
def Outcome.forget {α : Type} (o : Outcome α) : Outcome Unit :=
  { db := o.db, output := o.output, events := o.events,
    result := o.result.map (fun _ => ()) }

/-- `main` (`app.py:141-149`), renamed because Lean reserves `main` for
executables: dispatch the parsed subcommand to exactly one repository
operation. -/
def mainDispatch (c : Cmd) (db : DB) : Outcome Unit :=
  match c with
  | .listCmd => (getAllStudents db).forget
  | .addCmd fn ln em date => (addStudent db fn ln em date).forget
  | .updateEmailCmd sid em => (updateStudentEmail db sid em).forget
  | .deleteCmd sid => (deleteStudent db sid).forget

/-- A whole invocation: module import evaluates `DB_CONFIG` first, so an
initialisation exception aborts before any subcommand is dispatched. -/
def program (env : String → Option String) (c : Cmd) (db : DB) :
    Except PyErr (Outcome Unit) :=
  match DB_CONFIG env with
  | .error e => .error e
  | .ok _ => .ok (mainDispatch c db)

/-! ### Sample data shared by witnesses and counterexamples -/

/-- A concrete student row. -/
def ada : Student := ⟨1, "Ada", "Lovelace", "ada@example.com", ⟨1815, 12, 10⟩⟩

/-- A concrete one-row store whose serial counter is at 2. -/
def db1 : DB := ⟨[ada], 2⟩

/-! ### Helper lemmas -/

theorem sortRows_perm (l : List Student) : List.Perm (sortRows l) l :=
  List.perm_insertionSort leId l

theorem sortRows_sorted (l : List Student) : List.Sorted leId (sortRows l) :=
  List.sorted_insertionSort leId l

theorem map_id_on {α : Type} (f : α → α) :
    ∀ l : List α, (∀ x ∈ l, f x = x) → l.map f = l := by
  intro l h
  induction l with
  | nil => rfl
  | cons a t ih =>
    simp only [List.map_cons]
    rw [h a (by simp), ih (fun x hx => h x (by simp [hx]))]

theorem mem_split_unique {l : List Student} {r : Student}
    (hnd : (l.map Student.student_id).Nodup) (hr : r ∈ l) :
    ∃ l1 l2, l = l1 ++ r :: l2 ∧
      (∀ x ∈ l1, x.student_id ≠ r.student_id) ∧
      (∀ x ∈ l2, x.student_id ≠ r.student_id) := by
  obtain ⟨l1, l2, rfl⟩ := List.append_of_mem hr
  simp only [List.map_append, List.map_cons, List.nodup_append, List.nodup_cons] at hnd
  refine ⟨l1, l2, rfl, ?_, ?_⟩
  · intro x hx hEq
    exact hnd.2.2 (List.mem_map_of_mem _ hx) (by simp [hEq])
  · intro x hx hEq
    exact hnd.2.1.1 (hEq ▸ List.mem_map_of_mem _ hx)

theorem filter_eq_nil_of_no_match (l : List Student) (sid : Int)
    (h : ∀ x ∈ l, x.student_id ≠ sid) :
    l.filter (fun r => r.student_id == sid) = [] := by
  rw [List.filter_eq_nil_iff]
  intro a ha
  simpa using h a ha

theorem filter_keep_all_of_no_match (l : List Student) (sid : Int)
    (h : ∀ x ∈ l, x.student_id ≠ sid) :
    l.filter (fun r => !(r.student_id == sid)) = l := by
  rw [List.filter_eq_self]
  intro a ha
  simpa using h a ha

theorem map_no_update_of_no_match (l : List Student) (sid : Int) (em : String)
    (h : ∀ x ∈ l, x.student_id ≠ sid) :
    l.map (fun r => if r.student_id == sid then { r with email := em } else r) = l := by
  apply map_id_on
  intro x hx
  simp [h x hx]

/-- `updateStudentEmail` on an id matching no stored row: the not-found
report, an unchanged store, a normal return, and no explicit commit (only
the context-manager exit commit). -/
theorem updateStudentEmail_no_match (db : DB) (sid : Int) (em : String)
    (h : ∀ x ∈ db.rows, x.student_id ≠ sid) :
    updateStudentEmail db sid em =
      { db := db, output := ["No student found with id " ++ toString sid],
        events := listEvents, result := .ok () } := by
  unfold updateStudentEmail
  rw [filter_eq_nil_of_no_match db.rows sid h, map_no_update_of_no_match db.rows sid em h]

/-- `deleteStudent` on an id matching no stored row. -/
theorem deleteStudent_no_match (db : DB) (sid : Int)
    (h : ∀ x ∈ db.rows, x.student_id ≠ sid) :
    deleteStudent db sid =
      { db := db, output := ["No student found with id " ++ toString sid],
        events := listEvents, result := .ok () } := by
  unfold deleteStudent
  rw [filter_eq_nil_of_no_match db.rows sid h, filter_keep_all_of_no_match db.rows sid h]

theorem filter_eq_single_of_split (l1 l2 : List Student) (r : Student)
    (h1 : ∀ x ∈ l1, x.student_id ≠ r.student_id)
    (h2 : ∀ x ∈ l2, x.student_id ≠ r.student_id) :
    (l1 ++ r :: l2).filter (fun x => x.student_id == r.student_id) = [r] := by
  rw [List.filter_append, filter_eq_nil_of_no_match l1 r.student_id h1]
  simp [filter_eq_nil_of_no_match l2 r.student_id h2]

theorem filter_drop_one_of_split (l1 l2 : List Student) (r : Student)
    (h1 : ∀ x ∈ l1, x.student_id ≠ r.student_id)
    (h2 : ∀ x ∈ l2, x.student_id ≠ r.student_id) :
    (l1 ++ r :: l2).filter (fun x => !(x.student_id == r.student_id)) = l1 ++ l2 := by
  rw [List.filter_append, filter_keep_all_of_no_match l1 r.student_id h1]
  simp [filter_keep_all_of_no_match l2 r.student_id h2]

theorem map_update_one_of_split (l1 l2 : List Student) (r : Student) (em : String)
    (h1 : ∀ x ∈ l1, x.student_id ≠ r.student_id)
    (h2 : ∀ x ∈ l2, x.student_id ≠ r.student_id) :
    (l1 ++ r :: l2).map
        (fun x => if x.student_id == r.student_id then { x with email := em } else x)
      = l1 ++ { r with email := em } :: l2 := by
  rw [List.map_append, List.map_cons,
    map_no_update_of_no_match l1 r.student_id em h1,
    map_no_update_of_no_match l2 r.student_id em h2]
  simp

/-! ### Claims -/

/-- C5: for every store state, `list()` produces the sequence of all
student records sorted ascending by `student_id` (the returned rows are a
sorted permutation of the stored rows); on an empty store it returns the
empty sequence, reports the no-records message `"No students found."`, and
ends normally (no error). -/
theorem list_sorted_and_empty_report (db : DB) :
    (∃ l, (getAllStudents db).result = .ok (l.map toRow) ∧
      List.Perm l db.rows ∧ List.Sorted leId l) ∧
    (db.rows = [] →
      getAllStudents db =
        { db := db, output := ["No students found."], events := listEvents,
          result := .ok [] }) := by
  constructor
  · refine ⟨sortRows db.rows, ?_, sortRows_perm db.rows, sortRows_sorted db.rows⟩
    by_cases h : ((sortRows db.rows).map toRow).isEmpty = true
    · rw [List.isEmpty_iff] at h
      simp [getAllStudents, h]
    · simp [getAllStudents, h]
  · intro h
    have hs : sortRows db.rows = [] := by rw [h]; rfl
    simp [getAllStudents, hs]

/-- C5 witness: the theorem applied to the empty store with serial counter
5 yields the no-records report and the empty returned sequence. -/
theorem list_sorted_and_empty_report_witness :
    getAllStudents ⟨[], 5⟩ =
      { db := ⟨[], 5⟩, output := ["No students found."], events := listEvents,
        result := .ok [] } :=
  (list_sorted_and_empty_report ⟨[], 5⟩).2 rfl

/-- C10: `list()` returns its fetched rows as an in-memory value: for every
store state the returned list has exactly one element per stored record
(hence the empty list for an empty store). -/
theorem list_returns_structured_rows (db : DB) :
    ∃ rs, (getAllStudents db).result = .ok rs ∧ rs.length = db.rows.length := by
  refine ⟨(sortRows db.rows).map toRow, ?_, ?_⟩
  · by_cases h : ((sortRows db.rows).map toRow).isEmpty = true
    · rw [List.isEmpty_iff] at h
      simp [getAllStudents, h]
    · simp [getAllStudents, h]
  · rw [List.length_map]
    exact (sortRows_perm db.rows).length_eq

/-- C1: for every valid insert — the enrollment date a well-formed
(canonical) `YYYY-MM-DD` string, the store accepting the write as the model
does — a subsequent `list()` returns a row whose `first_name`, `last_name`,
`email` and `enrollment_date` equal the inserted values and whose
`student_id` equals the identifier the `INSERT ... RETURNING student_id`
yielded, which is exactly the one the insert reports. -/
theorem insert_then_list_contains_row (db : DB) (fn ln em date : String)
    (h : canonicalYmd date = true) :
    ∃ rows, (addStudent db fn ln em date).output =
        ["Added student with ID " ++ toString db.nextId] ∧
      (getAllStudents (addStudent db fn ln em date).db).result = .ok rows ∧
      (⟨db.nextId, fn, ln, em, date⟩ : Row) ∈ rows := by
  unfold canonicalYmd at h
  cases hp : parseYmd date with
  | none => rw [hp] at h; simp at h
  | some d =>
    rw [hp] at h
    have hrd : renderDate d = date := eq_of_beq h
    have ha : addStudent db fn ln em date =
        { db := { rows := db.rows ++ [⟨db.nextId, fn, ln, em, d⟩], nextId := db.nextId + 1 },
          output := ["Added student with ID " ++ toString db.nextId],
          events := commitEvents, result := .ok none } := by
      simp [addStudent, hp]
    rw [ha]
    have hmem : (⟨db.nextId, fn, ln, em, d⟩ : Student) ∈
        sortRows (db.rows ++ [⟨db.nextId, fn, ln, em, d⟩]) := by
      simp [sortRows]
    have hmem2 : toRow ⟨db.nextId, fn, ln, em, d⟩ ∈
        (sortRows (db.rows ++ [⟨db.nextId, fn, ln, em, d⟩])).map toRow :=
      List.mem_map_of_mem toRow hmem
    have hne : ¬ ((sortRows (db.rows ++ [⟨db.nextId, fn, ln, em, d⟩])).map toRow).isEmpty = true := by
      intro hcon
      rw [List.isEmpty_iff] at hcon
      rw [hcon] at hmem2
      exact absurd hmem2 (List.not_mem_nil _)
    refine ⟨(sortRows (db.rows ++ [⟨db.nextId, fn, ln, em, d⟩])).map toRow, rfl, ?_, ?_⟩
    · simp [getAllStudents, hne]
    · have hrow : toRow ⟨db.nextId, fn, ln, em, d⟩ = (⟨db.nextId, fn, ln, em, date⟩ : Row) := by
        simp [toRow, hrd]
      rw [← hrow]
      exact hmem2

/-- C1 witness: inserting Ada Lovelace into the empty store (serial at 1)
reports id 1 and a subsequent list returns a row with exactly the inserted
fields and id 1. -/
theorem insert_then_list_contains_row_witness :
    canonicalYmd "1815-12-10" = true ∧
    (∃ rows, (addStudent ⟨[], 1⟩ "Ada" "Lovelace" "ada@example.com" "1815-12-10").output =
        ["Added student with ID " ++ toString (1 : Int)] ∧
      (getAllStudents (addStudent ⟨[], 1⟩ "Ada" "Lovelace" "ada@example.com" "1815-12-10").db).result =
        .ok rows ∧
      (⟨1, "Ada", "Lovelace", "ada@example.com", "1815-12-10"⟩ : Row) ∈ rows) :=
  ⟨by decide,
   insert_then_list_contains_row ⟨[], 1⟩ "Ada" "Lovelace" "ada@example.com" "1815-12-10" (by decide)⟩

/-- C8: a successful insert returns `None` from `addStudent` (modelled as
`Except.ok none` of type `Option Int`): the new identifier reaches the
caller only through the single printed report line. -/
theorem addStudent_returns_none (db : DB) (fn ln em date : String) (d : Date)
    (hp : parseYmd date = some d) :
    (addStudent db fn ln em date).result = .ok none ∧
    (addStudent db fn ln em date).output =
      ["Added student with ID " ++ toString db.nextId] := by
  constructor <;> simp [addStudent, hp]

/-- C8 witness: inserting into the one-row store reports id 2 and returns
`None`. -/
theorem addStudent_returns_none_witness :
    (addStudent db1 "Grace" "Hopper" "grace@example.com" "1906-12-09").result = .ok none ∧
    (addStudent db1 "Grace" "Hopper" "grace@example.com" "1906-12-09").output =
      ["Added student with ID 2"] :=
  addStudent_returns_none db1 "Grace" "Hopper" "grace@example.com" "1906-12-09"
    ⟨1906, 12, 9⟩ (by decide)

/-- C2 counterexample: the claim as stated is false in both directions.
`"2024-02-30"` matches the `YYYY-MM-DD` format (even read with month and
day range checks) yet insert raises the `ValidationError`, because
`strptime` also demands a real calendar date; and `"2024-1-1"` does not
match the format yet raises nothing, because `%m`/`%d` accept single
digits. -/
theorem addStudent_validation_counterexample :
    matchesYmdFormat "2024-02-30" = true ∧
    (addStudent ⟨[], 1⟩ "Ada" "Lovelace" "ada@example.com" "2024-02-30").result =
      .error (.valueError "enrollment_date must be YYYY-MM-DD") ∧
    matchesYmdFormat "2024-1-1" = false ∧
    (addStudent ⟨[], 1⟩ "Ada" "Lovelace" "ada@example.com" "2024-1-1").result = .ok none :=
  ⟨by decide, rfl, by decide, rfl⟩

/-- C2 (amended): insert raises the `ValidationError` exactly for
enrollment-date strings `strptime("%Y-%m-%d")` rejects, and it does so
before any interaction with the store — no connection is opened, nothing
is printed, and the store is unchanged; for every string `strptime`
accepts, no `ValidationError` is raised. -/
theorem addStudent_validation_boundary (db : DB) (fn ln em date : String) :
    ((parseYmd date).isNone →
      addStudent db fn ln em date =
        { db := db, output := [], events := [],
          result := .error (.valueError "enrollment_date must be YYYY-MM-DD") }) ∧
    ((parseYmd date).isSome → (addStudent db fn ln em date).result = .ok none) := by
  constructor
  · intro h
    cases hp : parseYmd date with
    | none => simp [addStudent, hp]
    | some d => rw [hp] at h; simp at h
  · intro h
    cases hp : parseYmd date with
    | none => rw [hp] at h; simp at h
    | some d => simp [addStudent, hp]

/-- C2 witness: the spec's own example `"2024/01/01"` is rejected with no
connection event and no store change, while `"2024-01-01"` is accepted. -/
theorem addStudent_validation_boundary_witness :
    (addStudent ⟨[], 1⟩ "Ada" "Lovelace" "ada@example.com" "2024/01/01" =
      { db := ⟨[], 1⟩, output := [], events := [],
        result := .error (.valueError "enrollment_date must be YYYY-MM-DD") }) ∧
    (addStudent ⟨[], 1⟩ "Ada" "Lovelace" "ada@example.com" "2024-01-01").result = .ok none :=
  ⟨(addStudent_validation_boundary ⟨[], 1⟩ "Ada" "Lovelace" "ada@example.com" "2024/01/01").1
      (by decide),
   (addStudent_validation_boundary ⟨[], 1⟩ "Ada" "Lovelace" "ada@example.com" "2024-01-01").2
      (by decide)⟩

/-- `updateStudentEmail` on the id of a stored row, when no other row
shares that id: exactly that row's email changes, and the success path
runs. -/
theorem updateStudentEmail_found (db : DB) (em : String) (r : Student)
    (l1 l2 : List Student) (hsplit : db.rows = l1 ++ r :: l2)
    (h1 : ∀ x ∈ l1, x.student_id ≠ r.student_id)
    (h2 : ∀ x ∈ l2, x.student_id ≠ r.student_id) :
    updateStudentEmail db r.student_id em =
      { db := { db with rows := l1 ++ { r with email := em } :: l2 },
        output := ["Updated email for student " ++ toString r.student_id],
        events := commitEvents, result := .ok () } := by
  unfold updateStudentEmail
  rw [hsplit, filter_eq_single_of_split l1 l2 r h1 h2,
    map_update_one_of_split l1 l2 r em h1 h2]

/-- `deleteStudent` on the id of a stored row, when no other row shares
that id: exactly that row is removed, and the success path runs. -/
theorem deleteStudent_found (db : DB) (r : Student) (l1 l2 : List Student)
    (hsplit : db.rows = l1 ++ r :: l2)
    (h1 : ∀ x ∈ l1, x.student_id ≠ r.student_id)
    (h2 : ∀ x ∈ l2, x.student_id ≠ r.student_id) :
    deleteStudent db r.student_id =
      { db := { db with rows := l1 ++ l2 },
        output := ["Deleted student " ++ toString r.student_id],
        events := commitEvents, result := .ok () } := by
  unfold deleteStudent
  rw [hsplit, filter_eq_single_of_split l1 l2 r h1 h2,
    filter_drop_one_of_split l1 l2 r h1 h2]

/-- C3 counterexample: updating an absent id reports not-found, leaves the
store unchanged and ends normally — but a transaction IS committed on this
path: the early `return` leaves the `with get_conn() as conn:` block
normally, and psycopg2's `connection.__exit__` then commits the
transaction opened by the zero-row UPDATE, refuting "returns without
committing any transaction". -/
theorem update_notfound_commit_counterexample :
    (updateStudentEmail db1 999 "new@example.com").output =
      ["No student found with id 999"] ∧
    (updateStudentEmail db1 999 "new@example.com").db = db1 ∧
    (updateStudentEmail db1 999 "new@example.com").result = .ok () ∧
    Event.connExitCommit ∈ (updateStudentEmail db1 999 "new@example.com").events :=
  ⟨rfl, by decide, rfl, by decide⟩

/-- C3 (amended): for every absent `student_id`, `updateEmail` reports
not-found, skips the explicit success-path `conn.commit()` (the only
commit in its trace is the one `connection.__exit__` issues for the
zero-row transaction), leaves the store state unchanged, and returns
normally; for every present `student_id` (ids unique, as the primary key
guarantees) it mutates exactly one row. -/
theorem updateEmail_notfound_and_found (db : DB) (sid : Int) (em : String) :
    (sid ∉ db.rows.map Student.student_id →
      updateStudentEmail db sid em =
        { db := db, output := ["No student found with id " ++ toString sid],
          events := listEvents, result := .ok () }) ∧
    ((db.rows.map Student.student_id).Nodup → sid ∈ db.rows.map Student.student_id →
      ∃ l1 r l2, db.rows = l1 ++ r :: l2 ∧ r.student_id = sid ∧
        (updateStudentEmail db sid em).db.rows = l1 ++ { r with email := em } :: l2 ∧
        (updateStudentEmail db sid em).result = .ok ()) := by
  constructor
  · intro h
    apply updateStudentEmail_no_match
    intro x hx hEq
    exact h (hEq ▸ List.mem_map_of_mem _ hx)
  · intro hnd hmem
    obtain ⟨r, hr, hid⟩ := List.mem_map.mp hmem
    subst hid
    obtain ⟨l1, l2, hsplit, h1, h2⟩ := mem_split_unique hnd hr
    have hu := updateStudentEmail_found db em r l1 l2 hsplit h1 h2
    refine ⟨l1, r, l2, hsplit, rfl, ?_, ?_⟩
    · rw [hu]
    · rw [hu]

/-- C3 witness: with unique ids, updating absent id 999 in the one-row
store is the reported no-op, and updating present id 1 rewrites exactly
that row. -/
theorem updateEmail_notfound_and_found_witness :
    (updateStudentEmail db1 999 "new@example.com" =
      { db := db1, output := ["No student found with id 999"],
        events := listEvents, result := .ok () }) ∧
    (∃ l1 r l2, db1.rows = l1 ++ r :: l2 ∧ r.student_id = 1 ∧
      (updateStudentEmail db1 1 "new@example.com").db.rows =
        l1 ++ { r with email := "new@example.com" } :: l2 ∧
      (updateStudentEmail db1 1 "new@example.com").result = .ok ()) :=
  ⟨(updateEmail_notfound_and_found db1 999 "new@example.com").1 (by decide),
   (updateEmail_notfound_and_found db1 1 "new@example.com").2 (by decide) (by decide)⟩

/-- C7: updating the email of a present `student_id` (ids unique, as the
primary key guarantees) sets that record's `email` to the new value and
leaves its other fields, every other record, the row order, and the serial
counter unchanged; the operation reports success and returns normally. -/
theorem updateEmail_frame (db : DB) (sid : Int) (em : String) (r : Student)
    (hnd : (db.rows.map Student.student_id).Nodup) (hr : r ∈ db.rows)
    (hid : r.student_id = sid) :
    ∃ l1 l2, db.rows = l1 ++ r :: l2 ∧
      (updateStudentEmail db sid em).db.rows = l1 ++ { r with email := em } :: l2 ∧
      (updateStudentEmail db sid em).db.nextId = db.nextId ∧
      (updateStudentEmail db sid em).output =
        ["Updated email for student " ++ toString sid] ∧
      (updateStudentEmail db sid em).result = .ok () := by
  subst hid
  obtain ⟨l1, l2, hsplit, h1, h2⟩ := mem_split_unique hnd hr
  have hu := updateStudentEmail_found db em r l1 l2 hsplit h1 h2
  refine ⟨l1, l2, hsplit, ?_, ?_, ?_, ?_⟩ <;> rw [hu]

/-- C7 witness: updating Ada's email in the one-row store changes only the
email field of her row. -/
theorem updateEmail_frame_witness :
    ∃ l1 l2, db1.rows = l1 ++ ada :: l2 ∧
      (updateStudentEmail db1 1 "ada@new.org").db.rows =
        l1 ++ { ada with email := "ada@new.org" } :: l2 ∧
      (updateStudentEmail db1 1 "ada@new.org").db.nextId = db1.nextId ∧
      (updateStudentEmail db1 1 "ada@new.org").output =
        ["Updated email for student 1"] ∧
      (updateStudentEmail db1 1 "ada@new.org").result = .ok () :=
  updateEmail_frame db1 1 "ada@new.org" ada (by decide) (by decide) rfl

/-- C4: deleting a present `student_id` (ids unique, as the primary key
guarantees) removes exactly that one record, and a second delete of the
same id on the resulting store reports not-found, leaves the store
unchanged, and returns normally — idempotent deletion, not an error. -/
theorem delete_removes_one_and_idempotent (db : DB) (sid : Int) (r : Student)
    (hnd : (db.rows.map Student.student_id).Nodup) (hr : r ∈ db.rows)
    (hid : r.student_id = sid) :
    ∃ l1 l2, db.rows = l1 ++ r :: l2 ∧
      (deleteStudent db sid).db.rows = l1 ++ l2 ∧
      (deleteStudent db sid).db.rows.length + 1 = db.rows.length ∧
      (deleteStudent db sid).output = ["Deleted student " ++ toString sid] ∧
      deleteStudent (deleteStudent db sid).db sid =
        { db := (deleteStudent db sid).db,
          output := ["No student found with id " ++ toString sid],
          events := listEvents, result := .ok () } := by
  subst hid
  obtain ⟨l1, l2, hsplit, h1, h2⟩ := mem_split_unique hnd hr
  have hd := deleteStudent_found db r l1 l2 hsplit h1 h2
  refine ⟨l1, l2, hsplit, ?_, ?_, ?_, ?_⟩
  · rw [hd]
  · rw [hd, hsplit]
    simp [List.length_append]
    omega
  · rw [hd]
  · rw [hd]
    apply deleteStudent_no_match
    intro x hx hEq
    rcases List.mem_append.mp hx with hin | hin
    · exact h1 x hin hEq
    · exact h2 x hin hEq

/-- C4 witness: deleting id 1 from the one-row store removes Ada's row and
a second delete of id 1 is the reported no-op. -/
theorem delete_removes_one_and_idempotent_witness :
    ∃ l1 l2, db1.rows = l1 ++ ada :: l2 ∧
      (deleteStudent db1 1).db.rows = l1 ++ l2 ∧
      (deleteStudent db1 1).db.rows.length + 1 = db1.rows.length ∧
      (deleteStudent db1 1).output = ["Deleted student 1"] ∧
      deleteStudent (deleteStudent db1 1).db 1 =
        { db := (deleteStudent db1 1).db,
          output := ["No student found with id 1"],
          events := listEvents, result := .ok () } :=
  delete_removes_one_and_idempotent db1 1 ada (by decide) (by decide) rfl

/-- C6: the cursor is closed on every modelled exit path, but the claim
fails for the connection — the source relies on `with get_conn() as conn:`
(its comment says "ensure connections are closed automatically"), yet
psycopg2's connection context manager only ends the transaction and never
closes the connection, and no operation calls `conn.close()`: every
operation's trace opens a connection and contains no close event. -/
theorem connection_never_closed (db : DB) (sid : Int) (fn ln em date : String) :
    (Event.connOpen ∈ (getAllStudents db).events ∧
     Event.curClose ∈ (getAllStudents db).events ∧
     Event.connClose ∉ (getAllStudents db).events) ∧
    (Event.connClose ∉ (addStudent db fn ln em date).events) ∧
    (Event.connOpen ∈ (updateStudentEmail db sid em).events ∧
     Event.curClose ∈ (updateStudentEmail db sid em).events ∧
     Event.connClose ∉ (updateStudentEmail db sid em).events) ∧
    (Event.connOpen ∈ (deleteStudent db sid).events ∧
     Event.curClose ∈ (deleteStudent db sid).events ∧
     Event.connClose ∉ (deleteStudent db sid).events) := by
  refine ⟨?_, ?_, ?_, ?_⟩
  · by_cases h : ((sortRows db.rows).map toRow).isEmpty = true <;>
      simp [getAllStudents, h, listEvents]
  · cases hp : parseYmd date with
    | none => simp [addStudent, hp]
    | some d => simp [addStudent, hp, commitEvents]
  · cases hf : db.rows.filter (fun r => r.student_id == sid) with
    | nil => simp [updateStudentEmail, hf, listEvents]
    | cons a t => simp [updateStudentEmail, hf, commitEvents]
  · cases hf : db.rows.filter (fun r => r.student_id == sid) with
    | nil => simp [deleteStudent, hf, listEvents]
    | cons a t => simp [deleteStudent, hf, commitEvents]

/-- C9: a set `PGPORT` that `int()` rejects makes module initialisation
raise before any subcommand is dispatched (the whole invocation is the
initialisation error, whatever the command and store), whereas the other
four variables are used verbatim: configuration loading succeeds whenever
`PGPORT` is unset or parses, with the other variables arbitrary. -/
theorem pgport_strict_config :
    (∀ (env : String → Option String) (s : String) (c : Cmd) (db : DB),
      env "PGPORT" = some s → pyInt? s = none →
      program env c db =
        .error (.valueError ("invalid literal for int() with base 10: " ++ s))) ∧
    (∀ env : String → Option String, env "PGPORT" = none →
      ∃ cfg, DB_CONFIG env = .ok cfg) ∧
    (∀ (env : String → Option String) (s : String) (n : Int),
      env "PGPORT" = some s → pyInt? s = some n →
      ∃ cfg, DB_CONFIG env = .ok cfg ∧ cfg.port = n) := by
  refine ⟨?_, ?_, ?_⟩
  · intro env s c db he hp
    simp [program, DB_CONFIG, parsePort, he, hp]
  · intro env he
    refine ⟨{ host := (env "PGHOST").getD "localhost", port := 5432,
              dbname := (env "PGDATABASE").getD "university",
              user := (env "PGUSER").getD "postgres",
              password := (env "PGPASSWORD").getD "postgres" }, ?_⟩
    simp [DB_CONFIG, parsePort, he]
  · intro env s n he hp
    refine ⟨{ host := (env "PGHOST").getD "localhost", port := n,
              dbname := (env "PGDATABASE").getD "university",
              user := (env "PGUSER").getD "postgres",
              password := (env "PGPASSWORD").getD "postgres" }, ?_, rfl⟩
    simp [DB_CONFIG, parsePort, he, hp]

/-- C9 witness: `PGPORT=abc` aborts a `list` invocation at initialisation
whatever the other variables hold; an unset or numeric `PGPORT` loads the
configuration (port 6543 in the numeric case) with the other variables
arbitrary strings. -/
theorem pgport_strict_config_witness :
    program (fun k => if k = "PGPORT" then some "abc" else some "x") Cmd.listCmd ⟨[], 1⟩ =
      .error (.valueError ("invalid literal for int() with base 10: " ++ "abc")) ∧
    (∃ cfg, DB_CONFIG (fun k => if k = "PGPORT" then none else some "x") = .ok cfg) ∧
    (∃ cfg, DB_CONFIG (fun k => if k = "PGPORT" then some "6543" else some "x") = .ok cfg ∧
      cfg.port = 6543) :=
  ⟨pgport_strict_config.1 (fun k => if k = "PGPORT" then some "abc" else some "x") "abc"
      Cmd.listCmd ⟨[], 1⟩ (by decide) (by decide),
   pgport_strict_config.2.1 (fun k => if k = "PGPORT" then none else some "x") (by decide),
   pgport_strict_config.2.2 (fun k => if k = "PGPORT" then some "6543" else some "x") "6543" 6543
      (by decide) (by decide)⟩
